import Mathlib

/-!
Verification of the computational core of the `dynamic_energy_cost` Home
Assistant integration (`custom_components/dynamic_energy_cost/power_based_sensors.py`).

The embedding models:
* entity state strings by their parse class (`SVal`),
* Python `Decimal` / `float` arithmetic by exact rationals (`ℚ`), with
  `round(x, 2)` / `Decimal.quantize(Decimal("0.01"))` modelled by
  round-half-to-even at two decimal places (`round2`),
* wall-clock instants by rational second counts for the accumulator and by a
  proleptic-Gregorian calendar structure (`PyDateTime`) for reset scheduling,
* Python exceptions escaping a handler by the `raised` constructor of `PyResult`.

Two slips of the source are modelled faithfully rather than idealised:
* `handle_state_change` logs `new_state.state` inside the branch that guards
  `new_state is None`, so a `None` event raises `AttributeError`;
* the module imports only `Decimal` from `decimal`, so the clauses
  `except InvalidOperation` (restore) and `except (InvalidOperation, TypeError)`
  (meter update) raise `NameError` when a parse failure reaches them.
-/

namespace DynamicEnergyCost

/-- Parse class of an entity state string.  `num q` stands for a non-empty
string that Python `float`/`Decimal` parse as the number `q`; `unknown` and
`unavailable` are the two sentinel strings Home Assistant uses; `empty` is the
empty string (falsy, unparsable); `nonNum` is any other non-empty non-numeric
string such as `"abc"`. -/
inductive SVal where
  | num (q : ℚ)
  | unknown
  | unavailable
  | empty
  | nonNum
  deriving DecidableEq, Repr

/-- Python truthiness of the state string: only the empty string is falsy. -/
def SVal.isTruthy : SVal → Bool
  | .empty => false
  | _ => true

/-- Result of Python `float(s)` on the state string, `none` meaning
`ValueError`. -/
def SVal.toFloat : SVal → Option ℚ
  | .num q => some q
  | _ => none

/-- Result of Python `Decimal(s)` on the state string, `none` meaning
`decimal.InvalidOperation`. -/
def SVal.toDecimal : SVal → Option ℚ
  | .num q => some q
  | _ => none

/-- Python exceptions that escape the embedded handlers. -/
inductive PyErr where
  | attributeError
  | nameError
  deriving DecidableEq, Repr

/-- Outcome of running a Python handler: normal return, or an exception that
escapes it. -/
inductive PyResult (α : Type) where
  | ok (a : α)
  | raised (e : PyErr)
  deriving DecidableEq, Repr

/-- Round-half-to-even to the nearest integer: the tie-breaking rule of both
Python `round` and `Decimal.quantize` under the default context. -/
def rhalfEven (q : ℚ) : ℤ :=
  if q - ⌊q⌋ < 1 / 2 then ⌊q⌋
  else if 1 / 2 < q - ⌊q⌋ then ⌊q⌋ + 1
  else if ⌊q⌋ % 2 = 0 then ⌊q⌋ else ⌊q⌋ + 1

/-- `round(q, 2)` / `q.quantize(Decimal("0.01"))`: round-half-to-even at two
decimal places. -/
def round2 (q : ℚ) : ℚ := (rhalfEven (q * 100) : ℚ) / 100

/-- `RealTimeCostSensor.handle_state_change(event)` (power_based_sensors.py
lines 88–123).  `st` is `self._state`, `newState` is `event.data.get("new_state")`
(`none` = Python `None`), `price` / `power` are the current store states of the
two source entities.  Returns the new `self._state` together with whether
`async_write_ha_state` was called, or the exception that escaped.

Line-by-line correspondence:
* `new_state is None` → the guard body logs an f-string containing
  `new_state.state`, which raises `AttributeError` for `None`;
* event state `unknown`/`unavailable` → log and return;
* falsy (`not electricity_price or not power_usage`) or sentinel store state →
  log and return;
* `float` both store states, `calculated_cost = round(price * (power/1000), 2)`,
  publish only when it differs from `self._state`; `ValueError` is caught. -/
def handle_state_change (st : ℚ) (newState : Option SVal) (price power : SVal) :
    PyResult (ℚ × Bool) :=
  match newState with
  | none => .raised .attributeError
  | some s =>
    if s = .unknown ∨ s = .unavailable then .ok (st, false)
    else if ¬ price.isTruthy ∨ ¬ power.isTruthy
        ∨ price = .unknown ∨ price = .unavailable
        ∨ power = .unknown ∨ power = .unavailable then .ok (st, false)
    else
      match price.toFloat, power.toFloat with
      | some p, some w =>
          let calculated_cost := round2 (p * (w / 1000))
          if calculated_cost ≠ st then .ok (calculated_cost, true)
          else .ok (st, false)
      | _, _ => .ok (st, false)

/-- The published state after one invocation of `handle_state_change`: an
escaped exception leaves `self._state` untouched and publishes nothing. -/
def processEvent (st : ℚ) (newState : Option SVal) (price power : SVal) : ℚ × Bool :=
  match handle_state_change st newState price power with
  | .ok r => r
  | .raised _ => (st, false)

/-- Mutable state of a `UtilityMeterSensor` instance: `state` is `self._state`
(the cumulative cost, a `Decimal`), `lastUpdate` is `self._last_update` as a
wall-clock instant counted in seconds. -/
structure MeterState where
  state : ℚ
  lastUpdate : ℚ
  deriving DecidableEq, Repr

/-- `UtilityMeterSensor.__init__` (lines 162–173): `self._state = Decimal("0.00")`,
`self._last_update = now()`; `t` is the clock reading at construction. -/
def initMeter (t : ℚ) : MeterState := ⟨0, t⟩

/-- The restore part of `UtilityMeterSensor.async_added_to_hass` (lines 175–187).
`lastState` is `await self.async_get_last_state()` (`none` = Python `None`).
The returned `Bool` records whether control reached the
`self.schedule_next_reset()` call that follows the restore block.

The `except InvalidOperation` clause triggers a `NameError` when a parse
failure reaches it, because the module only imports `Decimal` from `decimal`;
the exception escapes `async_added_to_hass` before `schedule_next_reset()`. -/
def async_added_to_hass (m : MeterState) (lastState : Option SVal) :
    PyResult (MeterState × Bool) :=
  match lastState with
  | none => .ok (m, true)
  | some s =>
    if s = .unknown ∨ s = .unavailable then .ok (m, true)
    else
      match s.toDecimal with
      | some v => .ok ({ m with state := v }, true)
      | none => .raised .nameError

/-- `UtilityMeterSensor._handle_real_time_cost_update(event)` (lines 262–291).
`newState` is `event.data.get("new_state")`, `t` is the value of both `now()`
calls during the invocation.  Returns the new meter state together with whether
`async_write_ha_state` was called, or the exception that escaped.

Line-by-line correspondence:
* `None`/`unknown`/`unavailable` event state → log and return;
* `current_cost = Decimal(new_state.state)`;
  `hours_passed = Decimal((now() - self._last_update).total_seconds()) / Decimal(3600)`;
  `self._state += (current_cost * hours_passed).quantize(Decimal("0.01"))`;
  `self._last_update = now()`;
* on a parse failure the clause `except (InvalidOperation, TypeError)` raises
  `NameError` (`InvalidOperation` is not imported), which escapes before any
  mutation. -/
def handle_real_time_cost_update (m : MeterState) (newState : Option SVal) (t : ℚ) :
    PyResult (MeterState × Bool) :=
  match newState with
  | none => .ok (m, false)
  | some s =>
    if s = .unknown ∨ s = .unavailable then .ok (m, false)
    else
      match s.toDecimal with
      | some current_cost =>
          let hours_passed := (t - m.lastUpdate) / 3600
          .ok ({ state := m.state + round2 (current_cost * hours_passed),
                 lastUpdate := t }, true)
      | none => .raised .nameError

/-- `UtilityMeterSensor._reset_meter` (lines 254–260): `self._state = Decimal("0.00")`,
`self._last_update = now()`, write, re-arm. -/
def reset_meter (_ : MeterState) (t : ℚ) : MeterState := ⟨0, t⟩

/-- Net effect of one `_handle_real_time_cost_update` invocation on the meter
state: an escaped exception leaves the fields untouched. -/
def applyUpdate (m : MeterState) (newState : Option SVal) (t : ℚ) : MeterState :=
  match handle_real_time_cost_update m newState t with
  | .ok (m₁, _) => m₁
  | .raised _ => m

/-- Net effect of the restore block of `async_added_to_hass` on the meter
state: an escaped exception leaves the fields untouched. -/
def applyRestore (m : MeterState) (lastState : Option SVal) : MeterState :=
  match async_added_to_hass m lastState with
  | .ok (m₁, _) => m₁
  | .raised _ => m

/-- Meter states reachable through the life cycle of a `UtilityMeterSensor`
instance: construction, state restore, rate-update events, boundary resets. -/
inductive Reachable : MeterState → Prop
  | init (t : ℚ) : Reachable (initMeter t)
  | restore (m : MeterState) (lastState : Option SVal) (h : Reachable m) :
      Reachable (applyRestore m lastState)
  | update (m : MeterState) (newState : Option SVal) (t : ℚ) (h : Reachable m) :
      Reachable (applyUpdate m newState t)
  | reset (m : MeterState) (t : ℚ) (h : Reachable m) :
      Reachable (reset_meter m t)

/-- Meter states reachable when every restored value is nonnegative and every
numeric rate update carries a nonnegative rate with a timestamp not earlier
than the previous update. -/
inductive NonnegReachable : MeterState → Prop
  | init (t : ℚ) : NonnegReachable (initMeter t)
  | restore (m : MeterState) (lastState : Option SVal) (h : NonnegReachable m)
      (hval : ∀ q, lastState = some (SVal.num q) → 0 ≤ q) :
      NonnegReachable (applyRestore m lastState)
  | update (m : MeterState) (newState : Option SVal) (t : ℚ) (h : NonnegReachable m)
      (hval : ∀ q, newState = some (SVal.num q) → 0 ≤ q ∧ m.lastUpdate ≤ t) :
      NonnegReachable (applyUpdate m newState t)
  | reset (m : MeterState) (t : ℚ) (h : NonnegReachable m) :
      NonnegReachable (reset_meter m t)

/-- A Python `datetime.datetime` value (proleptic Gregorian calendar, year
unbounded). -/
structure PyDateTime where
  year : ℤ
  month : ℕ
  day : ℕ
  hour : ℕ
  minute : ℕ
  second : ℕ
  microsecond : ℕ
  deriving DecidableEq, Repr

/-- Gregorian leap-year rule. -/
def isLeap (y : ℤ) : Bool := (y % 4 == 0 && y % 100 != 0) || y % 400 == 0

/-- Length of month `m` of year `y`. -/
def daysInMonth (y : ℤ) (m : ℕ) : ℕ :=
  if m = 2 then (if isLeap y then 29 else 28)
  else if m = 4 ∨ m = 6 ∨ m = 9 ∨ m = 11 then 30
  else 31

/-- The calendar day after `d`, time of day unchanged. -/
def nextDay (d : PyDateTime) : PyDateTime :=
  if d.day < daysInMonth d.year d.month then { d with day := d.day + 1 }
  else if d.month < 12 then { d with month := d.month + 1, day := 1 }
  else { d with year := d.year + 1, month := 1, day := 1 }

/-- `d + timedelta(days=n)`: `n` calendar days after `d`, time of day
unchanged. -/
def addDays (d : PyDateTime) : ℕ → PyDateTime
  | 0 => d
  | n + 1 => addDays (nextDay d) n

/-- `d.replace(hour=0, minute=0, second=0, microsecond=0)`. -/
def atMidnight (d : PyDateTime) : PyDateTime :=
  { d with hour := 0, minute := 0, second := 0, microsecond := 0 }

/-- The three utility-meter intervals instantiated by `async_setup_entry`
(line 151: `intervals = ["daily", "monthly", "yearly"]`). -/
inductive Interval where
  | daily
  | monthly
  | yearly
  deriving DecidableEq, Repr

/-- `UtilityMeterSensor.calculate_next_reset_time` (lines 201–227), with the
`now()` call made a parameter `current_time`:
* daily: `(current_time + timedelta(days=1)).replace(hour=0, minute=0, second=0, microsecond=0)`;
* monthly: `next_month = (current_time.replace(day=1) + timedelta(days=32)).replace(day=1)`,
  then `next_month.replace(hour=0, minute=0, second=0, microsecond=0)`;
* yearly: `current_time.replace(year=current_time.year + 1, month=1, day=1, hour=0, minute=0, second=0, microsecond=0)`. -/
def calculate_next_reset_time (interval : Interval) (current_time : PyDateTime) :
    PyDateTime :=
  match interval with
  | .daily => atMidnight (addDays current_time 1)
  | .monthly =>
      let firstOfMonth : PyDateTime := { current_time with day := 1 }
      let shifted : PyDateTime := addDays firstOfMonth 32
      let next_month : PyDateTime := { shifted with day := 1 }
      atMidnight next_month
  | .yearly =>
      atMidnight { current_time with year := current_time.year + 1, month := 1, day := 1 }

/-- `current_time` denotes an actual calendar instant. -/
def ValidDate (d : PyDateTime) : Prop :=
  1 ≤ d.month ∧ d.month ≤ 12 ∧ 1 ≤ d.day ∧ d.day ≤ daysInMonth d.year d.month

instance : DecidablePred ValidDate := fun d => by unfold ValidDate; infer_instance

/-- Modelled from the spec, for comparison with the code: "daily → next
midnight", read as midnight of the calendar day following `current_time`. -/
def specNextMidnight (t : PyDateTime) : PyDateTime :=
  atMidnight (nextDay t)

/-- Modelled from the spec, for comparison with the code: "monthly → first of
next calendar month at midnight". -/
def specFirstOfNextMonth (t : PyDateTime) : PyDateTime :=
  if t.month < 12 then ⟨t.year, t.month + 1, 1, 0, 0, 0, 0⟩
  else ⟨t.year + 1, 1, 1, 0, 0, 0, 0⟩

/-- Modelled from the spec, for comparison with the code: "yearly → Jan 1 next
year at midnight". -/
def specJan1NextYear (t : PyDateTime) : PyDateTime :=
  ⟨t.year + 1, 1, 1, 0, 0, 0, 0⟩

/-- Pending host work, as far as `schedule_next_reset` is concerned: the armed
point-in-time listeners (by handle) and the queued-but-not-yet-run tasks
created by `hass.async_create_task`.  Tasks queued by a callback run only
after the callback completes (the host event loop is single-threaded). -/
structure HostState where
  pendingTimers : List ℕ
  pendingRemoveTasks : List ℕ
  nextHandle : ℕ
  deriving DecidableEq, Repr

/-- The scheduling-relevant state of a `UtilityMeterSensor`: `self._reset_timer`
if the attribute is set. -/
structure SchedulerState where
  resetTimer : Option ℕ
  deriving DecidableEq, Repr

/-- `UtilityMeterSensor.schedule_next_reset` (lines 236–252), synchronous
effects in program order:
1. `if hasattr(self, "_reset_timer"): self.hass.async_create_task(self.hass.async_remove_job(self._reset_timer))`
   — queues a task referring to the stored handle; it does not touch the armed
   timers during this invocation;
2. `self._reset_timer = async_track_point_in_time(self.hass, self._reset_meter, next_reset_time)`
   — arms a fresh timer and stores its handle.
The armed timer set therefore still contains the old handle when the call
returns. -/
def schedule_next_reset (host : HostState) (s : SchedulerState) :
    HostState × SchedulerState :=
  let host₁ :=
    match s.resetTimer with
    | some h => { host with pendingRemoveTasks := host.pendingRemoveTasks ++ [h] }
    | none => host
  let h := host₁.nextHandle
  ({ host₁ with pendingTimers := host₁.pendingTimers ++ [h], nextHandle := h + 1 },
   ⟨some h⟩)

/-! Helper lemmas shared by the claim theorems. -/

theorem rhalfEven_nonneg {q : ℚ} (h : 0 ≤ q) : 0 ≤ rhalfEven q := by
  unfold rhalfEven
  have hf : (0 : ℤ) ≤ ⌊q⌋ := Int.floor_nonneg.mpr h
  split_ifs <;> omega

theorem round2_nonneg {q : ℚ} (h : 0 ≤ q) : 0 ≤ round2 q := by
  unfold round2
  have h100 : (0 : ℚ) ≤ q * 100 := by positivity
  have := rhalfEven_nonneg h100
  have hcast : (0 : ℚ) ≤ (rhalfEven (q * 100) : ℚ) := by exact_mod_cast this
  positivity

theorem handle_num_eq (st : ℚ) (s : SVal) (p w : ℚ)
    (h1 : s ≠ SVal.unknown) (h2 : s ≠ SVal.unavailable) :
    handle_state_change st (some s) (.num p) (.num w) =
      if round2 (p * (w / 1000)) ≠ st then .ok (round2 (p * (w / 1000)), true)
      else .ok (st, false) := by
  simp only [handle_state_change, SVal.isTruthy, SVal.toFloat]
  rw [if_neg (by simp [h1, h2]), if_neg (by simp)]

theorem update_num_eq (m : MeterState) (c t : ℚ) :
    handle_real_time_cost_update m (some (.num c)) t
      = .ok ({ state := m.state + round2 (c * ((t - m.lastUpdate) / 3600)),
               lastUpdate := t }, true) := by
  simp only [handle_real_time_cost_update, SVal.toDecimal]
  rw [if_neg (by simp)]

theorem restore_lastUpdate_eq (m : MeterState) (lastState : Option SVal) :
    (applyRestore m lastState).lastUpdate = m.lastUpdate := by
  cases lastState with
  | none => rfl
  | some s => cases s <;> simp [applyRestore, async_added_to_hass, SVal.toDecimal]

/-! Claim theorems. -/

/-- C1: For every successful accumulator update (rate state present, numeric,
and not unknown/unavailable), `_handle_real_time_cost_update` increments the
cumulative value by exactly `round(new_rate * elapsed_hours, 2)` with
`elapsed_hours = (timestamp - last_update_timestamp).total_seconds() / 3600`,
then sets `last_update_timestamp` to the update timestamp; in particular a
rate of 2.00 in effect for exactly 1800 seconds adds exactly 1.00. -/
theorem rate_update_integrates (m : MeterState) (c t : ℚ) :
    handle_real_time_cost_update m (some (.num c)) t
      = .ok ({ state := m.state + round2 (c * ((t - m.lastUpdate) / 3600)),
               lastUpdate := t }, true) ∧
    (∀ s u : ℚ, handle_real_time_cost_update ⟨s, u⟩ (some (.num 2)) (u + 1800)
      = .ok (⟨s + 1, u + 1800⟩, true)) := by
  refine ⟨update_num_eq m c t, fun s u => ?_⟩
  rw [update_num_eq]
  have harg : (2 : ℚ) * ((u + 1800 - u) / 3600) = 1 := by ring
  norm_num [harg, round2, rhalfEven]

/-- C2: for every pair of numeric, available inputs, the rate computation
publishes `round(price * (power / 1000), 2)` (power in watts, price in
currency/kWh), the publish flag being set exactly when the rounded rate
differs from the previously published one. -/
theorem compute_rate_formula (st : ℚ) (s : SVal) (p w : ℚ)
    (h1 : s ≠ SVal.unknown) (h2 : s ≠ SVal.unavailable) :
    handle_state_change st (some s) (.num p) (.num w)
      = .ok (round2 (p * (w / 1000)), decide (round2 (p * (w / 1000)) ≠ st)) := by
  rw [handle_num_eq st s p w h1 h2]
  by_cases hc : round2 (p * (w / 1000)) = st
  · simp [hc]
  · simp [hc]

/-- C2 witness at price 2 EUR/kWh, power 500 W, previous state 0. -/
theorem compute_rate_formula_witness :
    handle_state_change 0 (some (SVal.num 1)) (SVal.num 2) (SVal.num 500)
      = .ok (round2 (2 * (500 / 1000)), decide (round2 (2 * (500 / 1000)) ≠ 0)) :=
  compute_rate_formula 0 (SVal.num 1) 2 500 (by simp) (by simp)

/-- C3: the claim says every invalid rate-calculator input (missing, unknown,
unavailable, non-numeric) is logged and swallowed with no state change.  The
unknown/unavailable/non-numeric cases behave as claimed, but a missing
(`None`) event state raises an uncaught `AttributeError`, because the skip
branch logs an f-string that dereferences `new_state.state`. -/
theorem invalid_input_behavior (st : ℚ) (price power : SVal) :
    handle_state_change st none price power = .raised .attributeError ∧
    handle_state_change st (some .unknown) price power = .ok (st, false) ∧
    handle_state_change st (some .unavailable) price power = .ok (st, false) ∧
    handle_state_change st (some (.num 1)) .nonNum power = .ok (st, false) := by
  refine ⟨rfl, by simp [handle_state_change], by simp [handle_state_change], ?_⟩
  by_cases hp : ¬ SVal.nonNum.isTruthy ∨ ¬ power.isTruthy
      ∨ SVal.nonNum = SVal.unknown ∨ SVal.nonNum = SVal.unavailable
      ∨ power = SVal.unknown ∨ power = SVal.unavailable
  · simp only [handle_state_change]
    rw [if_neg (by simp), if_pos hp]
  · simp only [handle_state_change]
    rw [if_neg (by simp), if_neg hp]
    simp [SVal.toFloat]

/-- C4 counterexample: with previously published rate 0 and inputs price 1,
power 0 (rounded rate 0), two consecutive identical rate inputs publish zero
times, not exactly once as claimed. -/
theorem change_gate_counterexample :
    processEvent 0 (some (SVal.num 0)) (SVal.num 1) (SVal.num 0) = (0, false) ∧
    processEvent (processEvent 0 (some (SVal.num 0)) (SVal.num 1) (SVal.num 0)).1
        (some (SVal.num 0)) (SVal.num 1) (SVal.num 0) = (0, false) := by
  constructor <;>
    norm_num [processEvent, handle_state_change, SVal.isTruthy, SVal.toFloat,
      round2, rhalfEven]

/-- C4 amended: an input whose rounded rate equals the previously published
value publishes nothing and one whose rounded rate differs publishes exactly
once, so two consecutive identical rate inputs publish at most once — exactly
once (the first) when the first rounded rate differs from the previously
published value, and never on the second. -/
theorem change_gate_amended (st p w e : ℚ) :
    processEvent st (some (SVal.num e)) (SVal.num p) (SVal.num w)
        = (round2 (p * (w / 1000)), decide (round2 (p * (w / 1000)) ≠ st)) ∧
    processEvent (processEvent st (some (SVal.num e)) (SVal.num p) (SVal.num w)).1
        (some (SVal.num e)) (SVal.num p) (SVal.num w)
        = (round2 (p * (w / 1000)), false) := by
  have step : ∀ st' : ℚ, processEvent st' (some (SVal.num e)) (SVal.num p) (SVal.num w)
      = (round2 (p * (w / 1000)), decide (round2 (p * (w / 1000)) ≠ st')) := by
    intro st'
    unfold processEvent
    rw [handle_num_eq st' (SVal.num e) p w (by simp) (by simp)]
    by_cases hc : round2 (p * (w / 1000)) = st'
    · simp [hc]
    · simp [hc]
  refine ⟨step st, ?_⟩
  rw [step st]
  simp only
  rw [step (round2 (p * (w / 1000)))]
  simp

/-- C5: the claim says a persisted "12.34" restores to 12.34, an absent or
unparsable persisted value yields 0.00 with the failure logged as non-fatal,
and `schedule_next_reset()` runs afterwards in every case.  The "12.34" and
absent cases behave as claimed, but an unparsable value raises an uncaught
`NameError` (the `except InvalidOperation` clause names an identifier the
module never imports), so `schedule_next_reset()` is not reached. -/
theorem restore_behavior (t : ℚ) :
    async_added_to_hass (initMeter t) (some (SVal.num (1234 / 100)))
        = .ok (⟨1234 / 100, t⟩, true) ∧
    async_added_to_hass (initMeter t) none = .ok (⟨0, t⟩, true) ∧
    async_added_to_hass (initMeter t) (some SVal.nonNum) = .raised .nameError := by
  refine ⟨?_, rfl, ?_⟩ <;> simp [async_added_to_hass, SVal.toDecimal, initMeter]

/-- C6: the claim says a failed parse of the new rate is caught and logged
with value and timestamp unchanged.  The fields are indeed unchanged (the
exception occurs before any mutation), but the exception is not caught: the
`except (InvalidOperation, TypeError)` clause raises `NameError` because
`InvalidOperation` is never imported, so the failure escapes the handler. -/
theorem update_parse_failure (m : MeterState) (t : ℚ) :
    handle_real_time_cost_update m (some SVal.nonNum) t = .raised .nameError ∧
    applyUpdate m (some SVal.nonNum) t = m := by
  constructor <;> simp [handle_real_time_cost_update, applyUpdate, SVal.toDecimal]

/-- C7 counterexample: a rate update carrying the negative rate −1, applied
one hour after initialization, drives the cumulative total to −1, so the
claimed invariant `value ≥ 0` fails on a reachable state. -/
theorem total_nonneg_counterexample :
    Reachable ⟨-1, 3600⟩ ∧ ¬ (0 ≤ (MeterState.mk (-1) 3600).state) := by
  constructor
  · have h := Reachable.update (initMeter 0) (some (SVal.num (-1))) 3600
      (Reachable.init 0)
    have e : applyUpdate (initMeter 0) (some (SVal.num (-1))) 3600 = ⟨-1, 3600⟩ := by
      norm_num [applyUpdate, handle_real_time_cost_update, initMeter, SVal.toDecimal,
        round2, rhalfEven]
      simp
    rwa [e] at h
  · norm_num

/-- C7 amended: the cumulative total stays nonnegative on every reachable
state in which each restored value is nonnegative and each numeric rate
update carries a nonnegative rate with a timestamp not earlier than the
previous update; with negative rates (possible, since electricity prices can
go negative) the total can go below zero. -/
theorem total_nonneg_amended (m : MeterState) (h : NonnegReachable m) :
    0 ≤ m.state := by
  induction h with
  | init t => simp [initMeter]
  | restore m lastState h hval ih =>
      cases lastState with
      | none => simpa [applyRestore, async_added_to_hass] using ih
      | some s =>
          cases s with
          | num q =>
              have hq : 0 ≤ q := hval q rfl
              simpa [applyRestore, async_added_to_hass, SVal.toDecimal] using hq
          | unknown => simpa [applyRestore, async_added_to_hass] using ih
          | unavailable => simpa [applyRestore, async_added_to_hass] using ih
          | empty => simpa [applyRestore, async_added_to_hass, SVal.toDecimal] using ih
          | nonNum => simpa [applyRestore, async_added_to_hass, SVal.toDecimal] using ih
  | update m newState t h hval ih =>
      cases newState with
      | none => simpa [applyUpdate, handle_real_time_cost_update] using ih
      | some s =>
          cases s with
          | num q =>
              obtain ⟨hq, ht⟩ := hval q rfl
              have harg : 0 ≤ q * ((t - m.lastUpdate) / 3600) := by
                have : (0 : ℚ) ≤ t - m.lastUpdate := by linarith
                positivity
              have := round2_nonneg harg
              simp only [applyUpdate, update_num_eq]
              exact add_nonneg ih this
          | unknown => simpa [applyUpdate, handle_real_time_cost_update] using ih
          | unavailable => simpa [applyUpdate, handle_real_time_cost_update] using ih
          | empty => simpa [applyUpdate, handle_real_time_cost_update, SVal.toDecimal] using ih
          | nonNum => simpa [applyUpdate, handle_real_time_cost_update, SVal.toDecimal] using ih
  | reset m t h ih => simp [reset_meter]

/-- C7 amended witness: the state reached by initialization at time 0,
a rate update of 0.50 one half hour later, and a daily reset, has a
nonnegative total. -/
theorem total_nonneg_amended_witness :
    0 ≤ (reset_meter (applyUpdate (initMeter 0) (some (SVal.num (1 / 2))) 1800) 86400).state :=
  total_nonneg_amended _
    (NonnegReachable.reset _ 86400
      (NonnegReachable.update (initMeter 0) (some (SVal.num (1 / 2))) 1800
        (NonnegReachable.init 0)
        (fun q hq => by
          simp only [Option.some.injEq, SVal.num.injEq] at hq
          constructor
          · rw [← hq]; norm_num
          · simp [initMeter])))

/-! Calendar lemmas for the reset-boundary computation. -/

theorem daysInMonth_le_31 (y : ℤ) (m : ℕ) : daysInMonth y m ≤ 31 := by
  unfold daysInMonth; split_ifs <;> omega

theorem le_daysInMonth (y : ℤ) (m : ℕ) : 28 ≤ daysInMonth y m := by
  unfold daysInMonth; split_ifs <;> omega

theorem addDays_add (d : PyDateTime) (a b : ℕ) :
    addDays d (a + b) = addDays (addDays d a) b := by
  induction a generalizing d with
  | zero => simp [addDays]
  | succ n ih =>
      have h : n + 1 + b = (n + b) + 1 := by omega
      rw [h]
      show addDays (nextDay d) (n + b) = addDays (addDays d (n + 1)) b
      rw [ih (nextDay d)]
      rfl

theorem addDays_within (k : ℕ) : ∀ d : PyDateTime,
    d.day + k ≤ daysInMonth d.year d.month →
    addDays d k = { d with day := d.day + k } := by
  induction k with
  | zero => intro d h; simp [addDays]
  | succ n ih =>
      intro d h
      have hlt : d.day < daysInMonth d.year d.month := by omega
      show addDays (nextDay d) n = _
      rw [nextDay, if_pos hlt]
      rw [ih { d with day := d.day + 1 } (by simp; omega)]
      simp
      omega

theorem addDays_roll (k : ℕ) : ∀ d : PyDateTime,
    1 ≤ d.day → d.day ≤ daysInMonth d.year d.month →
    d.day + k = daysInMonth d.year d.month + 1 →
    addDays d k =
      (if d.month < 12 then { d with month := d.month + 1, day := 1 }
       else { d with year := d.year + 1, month := 1, day := 1 }) := by
  induction k with
  | zero => intro d h1 h2 h3; omega
  | succ n ih =>
      intro d h1 h2 h3
      show addDays (nextDay d) n = _
      by_cases hlt : d.day < daysInMonth d.year d.month
      · rw [nextDay, if_pos hlt]
        rw [ih { d with day := d.day + 1 } (by simp) (by simp; try omega) (by simp; try omega)]
      · have hn : n = 0 := by omega
        subst hn
        rw [nextDay, if_neg hlt]
        by_cases hm : d.month < 12 <;> simp [addDays, hm]

/-- C8: for every valid current time, the next-reset computation is a pure
function of the current time and the interval kind that yields the next
midnight (daily), midnight on the first day of the next calendar month
(monthly), and midnight on January 1 of the next year (yearly). -/
theorem next_reset_correct (t : PyDateTime) (h : ValidDate t) :
    calculate_next_reset_time .daily t = specNextMidnight t ∧
    calculate_next_reset_time .monthly t = specFirstOfNextMonth t ∧
    calculate_next_reset_time .yearly t = specJan1NextYear t := by
  obtain ⟨y, mo, d, hh, mi, se, us⟩ := t
  obtain ⟨hm1, hm2, hd1, hd2⟩ := h
  simp only [PyDateTime.month] at hm1 hm2
  simp only [PyDateTime.day, PyDateTime.year, PyDateTime.month] at hd1 hd2
  refine ⟨rfl, ?_, rfl⟩
  simp only [calculate_next_reset_time]
  have h28 : 28 ≤ daysInMonth y mo := le_daysInMonth y mo
  have h31 : daysInMonth y mo ≤ 31 := daysInMonth_le_31 y mo
  have hsplit : (32 : ℕ) = daysInMonth y mo + (32 - daysInMonth y mo) := by omega
  have hroll := addDays_roll (daysInMonth y mo) ⟨y, mo, 1, hh, mi, se, us⟩
    (by simp) (by simp; omega) (by simp; omega)
  rw [hsplit, addDays_add, hroll]
  by_cases hmo : mo < 12
  · rw [if_pos (by simpa using hmo)]
    have hwithin := addDays_within (32 - daysInMonth y mo)
      (⟨y, mo + 1, 1, hh, mi, se, us⟩ : PyDateTime)
      (by
        simp only [PyDateTime.day, PyDateTime.year, PyDateTime.month]
        have := le_daysInMonth y (mo + 1)
        omega)
    simp only [PyDateTime.day] at hwithin
    have hrec : ({ (⟨y, mo, 1, hh, mi, se, us⟩ : PyDateTime) with
        month := mo + 1, day := 1 } : PyDateTime) = ⟨y, mo + 1, 1, hh, mi, se, us⟩ := rfl
    rw [hrec, hwithin]
    simp [atMidnight, specFirstOfNextMonth, hmo]
  · rw [if_neg (by simpa using hmo)]
    have hwithin := addDays_within (32 - daysInMonth y mo)
      (⟨y + 1, 1, 1, hh, mi, se, us⟩ : PyDateTime)
      (by
        simp only [PyDateTime.day, PyDateTime.year, PyDateTime.month]
        have := le_daysInMonth (y + 1) 1
        omega)
    simp only [PyDateTime.day] at hwithin
    have hrec : ({ (⟨y, mo, 1, hh, mi, se, us⟩ : PyDateTime) with
        year := y + 1, month := 1, day := 1 } : PyDateTime) = ⟨y + 1, 1, 1, hh, mi, se, us⟩ := rfl
    rw [hrec, hwithin]
    simp [atMidnight, specFirstOfNextMonth, hmo]

/-- C8 witness at 2024-10-12 23:59:59.000001. -/
theorem next_reset_correct_witness :
    calculate_next_reset_time .daily ⟨2024, 10, 12, 23, 59, 59, 1⟩
        = specNextMidnight ⟨2024, 10, 12, 23, 59, 59, 1⟩ ∧
    calculate_next_reset_time .monthly ⟨2024, 10, 12, 23, 59, 59, 1⟩
        = specFirstOfNextMonth ⟨2024, 10, 12, 23, 59, 59, 1⟩ ∧
    calculate_next_reset_time .yearly ⟨2024, 10, 12, 23, 59, 59, 1⟩
        = specJan1NextYear ⟨2024, 10, 12, 23, 59, 59, 1⟩ :=
  next_reset_correct ⟨2024, 10, 12, 23, 59, 59, 1⟩ (by decide)

/-- C9: the claim says every `schedule_next_reset` call cancels the previous
timer before arming the new one, so at most one reset timer per instance is
ever pending.  In the source the removal is only queued as a task
(`hass.async_create_task(...)`) while the new timer is armed synchronously, so
when a re-scheduling call returns both the old and the new timer are pending:
starting from no timers, two consecutive calls leave two pending timers, with
the removal of the first merely sitting in the task queue. -/
theorem schedule_two_pending :
    (schedule_next_reset (schedule_next_reset ⟨[], [], 0⟩ ⟨none⟩).1
        (schedule_next_reset ⟨[], [], 0⟩ ⟨none⟩).2).1.pendingTimers = [0, 1] ∧
    (schedule_next_reset (schedule_next_reset ⟨[], [], 0⟩ ⟨none⟩).1
        (schedule_next_reset ⟨[], [], 0⟩ ⟨none⟩).2).1.pendingRemoveTasks = [0] := by
  constructor <;> rfl

/-- C10: restoring a persisted total mutates only the accumulator value:
`last_update_timestamp` keeps the clock reading taken at construction, never
a persisted instant, so the first rate update after a restart integrates
against the construction-time timestamp. -/
theorem restore_frame_effect (m : MeterState) (lastState : Option SVal) (t c u : ℚ) :
    (applyRestore m lastState).lastUpdate = m.lastUpdate ∧
    (applyRestore (initMeter t) lastState).lastUpdate = t ∧
    handle_real_time_cost_update (applyRestore (initMeter t) lastState)
        (some (.num c)) u
      = .ok ({ state := (applyRestore (initMeter t) lastState).state
                 + round2 (c * ((u - t) / 3600)),
               lastUpdate := u }, true) := by
  have h2 : (applyRestore (initMeter t) lastState).lastUpdate = t := by
    rw [restore_lastUpdate_eq]; rfl
  refine ⟨restore_lastUpdate_eq m lastState, h2, ?_⟩
  rw [update_num_eq, h2]

end DynamicEnergyCost

/-! Concrete sanity checks of the embedding. -/

section SanityChecks
open DynamicEnergyCost

example : round2 1 = 1 := by norm_num [round2, rhalfEven]
example : round2 (-1) = -1 := by norm_num [round2, rhalfEven]
example : round2 (5/1000) = 0 := by norm_num [round2, rhalfEven]
example : round2 (15/1000) = 2/100 := by norm_num [round2, rhalfEven]
example : handle_state_change 0 (some (.num 0)) (.num 1) (.num 0) = .ok (0, false) := by
  norm_num [handle_state_change, SVal.isTruthy, SVal.toFloat, round2, rhalfEven]
example : handle_state_change 0 (some (.num 0)) (.num 2) (.num 500) = .ok (1, true) := by
  norm_num [handle_state_change, SVal.isTruthy, SVal.toFloat, round2, rhalfEven]
  simp
example : handle_state_change 0 none (.num 2) (.num 500) = .raised .attributeError := rfl
example : handle_state_change 5 (some .nonNum) (.num 2) .nonNum = .ok (5, false) := by
  norm_num [handle_state_change, SVal.isTruthy, SVal.toFloat]
example : handle_state_change 5 (some (.num 1)) .empty (.num 3) = .ok (5, false) := by
  norm_num [handle_state_change, SVal.isTruthy, SVal.toFloat]

example : handle_real_time_cost_update ⟨0, 0⟩ (some (.num 2)) 1800 = .ok (⟨1, 1800⟩, true) := by
  norm_num [handle_real_time_cost_update, SVal.toDecimal, round2, rhalfEven]
  simp
example : handle_real_time_cost_update ⟨7, 3⟩ (some .nonNum) 1800 = .raised .nameError := by
  norm_num [handle_real_time_cost_update, SVal.toDecimal]
  simp
example : applyUpdate (initMeter 0) (some (.num (-1))) 3600 = ⟨-1, 3600⟩ := by
  norm_num [applyUpdate, handle_real_time_cost_update, initMeter, SVal.toDecimal, round2, rhalfEven]
  simp
example : async_added_to_hass (initMeter 5) (some (.num (1234/100))) = .ok (⟨1234/100, 5⟩, true) := by
  norm_num [async_added_to_hass, SVal.toDecimal, initMeter]
  simp
example : async_added_to_hass (initMeter 5) (some .nonNum) = .raised .nameError := by
  norm_num [async_added_to_hass, SVal.toDecimal, initMeter]
  simp
example : async_added_to_hass (initMeter 5) none = .ok (⟨0, 5⟩, true) := rfl

set_option maxRecDepth 8000

example : calculate_next_reset_time .daily ⟨2024, 10, 12, 23, 59, 59, 1⟩
    = ⟨2024, 10, 13, 0, 0, 0, 0⟩ := by decide
example : calculate_next_reset_time .daily ⟨2024, 12, 31, 5, 0, 0, 0⟩
    = ⟨2025, 1, 1, 0, 0, 0, 0⟩ := by decide
example : calculate_next_reset_time .monthly ⟨2024, 1, 31, 5, 0, 0, 0⟩
    = ⟨2024, 2, 1, 0, 0, 0, 0⟩ := by decide
example : calculate_next_reset_time .monthly ⟨2024, 2, 7, 5, 0, 0, 0⟩
    = ⟨2024, 3, 1, 0, 0, 0, 0⟩ := by decide
example : calculate_next_reset_time .monthly ⟨2023, 12, 7, 5, 0, 0, 0⟩
    = ⟨2024, 1, 1, 0, 0, 0, 0⟩ := by decide
example : calculate_next_reset_time .yearly ⟨2024, 10, 12, 23, 59, 59, 1⟩
    = ⟨2025, 1, 1, 0, 0, 0, 0⟩ := by decide
example : specFirstOfNextMonth ⟨2024, 2, 7, 5, 0, 0, 0⟩ = ⟨2024, 3, 1, 0, 0, 0, 0⟩ := by decide

example :
    let r₁ := schedule_next_reset ⟨[], [], 0⟩ ⟨none⟩
    let r₂ := schedule_next_reset r₁.1 r₁.2
    r₂.1.pendingTimers = [0, 1] := by decide

end SanityChecks
